import Mathlib

/-!
Verification of the dailydrop core: the Question Sequencer
(`server/sheets.ts`, `DatabaseStorage.getDailyQuestion` in
`server/storage.ts`) and the Analysis Pipeline
(`POST /api/analysis` handler in `server/routes.ts` together with the
storage methods it calls).

The TypeScript is embedded shallowly: the module-level mutable
`currentQuestionIndex` becomes an explicit cursor value threaded through
each operation, thrown exceptions become `Except` values carrying the
thrown message, and the spreadsheet / database / OpenAI collaborators
become explicit inputs (a fetched row list, a store record, a generator
function).
-/

namespace DailyDrop

/-! ## Question Sequencer (server/sheets.ts) -/

/-- One parsed spreadsheet row: column A parsed with `parseInt` (the row
id) and column B (the question text). -/
structure Row where
  id : Int
  text : String
deriving DecidableEq, Repr

/-- Outcome of the Google Sheets fetch performed at the top of
`getCurrentQuestion` / `getNextQuestion`: either the row list of the
response (possibly empty), or a transport/auth failure thrown by the
API call. -/
inductive FetchResult where
  | ok (rows : List Row)
  | err
deriving DecidableEq, Repr

/-- The `{ question, questionId }` object returned by the sheets
module's lookups. -/
structure QA where
  question : String
  questionId : Int
deriving DecidableEq, Repr

/-- The message of the error rethrown by `getNextQuestion`'s catch
block.  Every failure inside the try body — transport error, empty
sheet, or the post-reset lookup of ID 1 failing — is caught there and
replaced by this one generic error. -/
def sheetsFailureMsg : String := "Failed to fetch question from Google Sheets"

/-- The message of the error rethrown by `getCurrentQuestion`'s catch
block. -/
def currentFailureMsg : String := "Failed to fetch current question from Google Sheets"

/-- `getNextQuestion` from `server/sheets.ts`, with the module variable
`currentQuestionIndex` passed in and the updated value returned.
Branches, in source order: transport failure (caught, cursor
untouched); empty row list (throw, cursor untouched); row matching the
cursor found (return it, cursor incremented); no match (cursor reset to
1, ID 1 looked up: found — returned with the cursor left at 1, the
increment statement is not on this path — or not found, throw with the
cursor left at 1).  The catch block maps every thrown error to
`sheetsFailureMsg`. -/
def getNextQuestion : FetchResult → Int → Except String QA × Int
  | FetchResult.err, c => (Except.error sheetsFailureMsg, c)
  | FetchResult.ok rows, c =>
    if rows.isEmpty then
      (Except.error sheetsFailureMsg, c)
    else
      match rows.find? (fun row => row.id = c) with
      | some questionRow =>
          (Except.ok ⟨questionRow.text, questionRow.id⟩, c + 1)
      | none =>
          match rows.find? (fun row => row.id = 1) with
          | some firstRow => (Except.ok ⟨firstRow.text, firstRow.id⟩, 1)
          | none => (Except.error sheetsFailureMsg, 1)

/-- `getCurrentQuestion` from `server/sheets.ts`: the same lookup keyed
by the current cursor value, but with no assignment to
`currentQuestionIndex` anywhere in its body, so the returned cursor is
the input cursor on every branch.  Its catch block maps every thrown
error to `currentFailureMsg`. -/
def getCurrentQuestion : FetchResult → Int → Except String QA × Int
  | FetchResult.err, c => (Except.error currentFailureMsg, c)
  | FetchResult.ok rows, c =>
    if rows.isEmpty then
      (Except.error currentFailureMsg, c)
    else
      match rows.find? (fun row => row.id = c) with
      | some questionRow =>
          (Except.ok ⟨questionRow.text, questionRow.id⟩, c)
      | none => (Except.error currentFailureMsg, c)

/-- `setQuestionIndex` from `server/sheets.ts`: rejects an index below 1
with a thrown error (cursor unchanged), otherwise overwrites the
cursor. -/
def setQuestionIndex (index : Int) (c : Int) : Except String Unit × Int :=
  if index < 1 then
    (Except.error "Question index must be greater than 0", c)
  else
    (Except.ok (), index)

/-! ## getDailyQuestion (server/storage.ts) -/

/-- The `FALLBACK_QUESTIONS` array declared inside
`DatabaseStorage.getDailyQuestion`'s catch block. -/
def FALLBACK_QUESTIONS : List String :=
  [ "What small moment from today made you smile?"
  , "What\x27s something you feel is seeking you?"
  , "What\x27s a little detail in your daily routine that you really enjoy?"
  , "What\x27s one thing you learned recently?"
  , "What are you grateful for today?"
  , "What\x27s challenging you right now?"
  , "What\x27s something you\x27re looking forward to?"
  , "What\x27s a small win you had today?"
  , "What\x27s something that inspired you recently?"
  , "What\x27s a goal you\x27re working towards?"
  , "What made today unique?"
  , "What\x27s something you\x27d like to improve?" ]

/-- A value returned by `getDailyQuestion`.  On the success path the
method returns the `{ question, questionId }` object produced by
`getNextQuestion` unchanged; on the fallback path it returns a bare
string from `FALLBACK_QUESTIONS` (the method's declared return type is
`Promise<string>`, but the success value is the object). -/
inductive DailyQuestionResult where
  | withId (question : String) (questionId : Int)
  | bare (question : String)
deriving DecidableEq, Repr

/-- Whether a `getDailyQuestion` response carries a `questionId`. -/
def DailyQuestionResult.hasQuestionId : DailyQuestionResult → Bool
  | DailyQuestionResult.withId _ _ => true
  | DailyQuestionResult.bare _ => false

/-- `Math.floor(date.getTime() / (1000 * 60 * 60 * 24))` from the catch
block of `getDailyQuestion`, for a date given as milliseconds since the
epoch (the variable is named `dayOfYear` in the source). -/
def dayOfYear (timeMs : Nat) : Nat :=
  timeMs / (1000 * 60 * 60 * 24)

/-- `DatabaseStorage.getDailyQuestion` from `server/storage.ts`: tries
`getNextQuestion`; on any error from it, returns
`FALLBACK_QUESTIONS[dayOfYear % FALLBACK_QUESTIONS.length]`.  The
cursor after the call is whatever `getNextQuestion` left behind. -/
def getDailyQuestion (f : FetchResult) (timeMs : Nat) (c : Int) :
    DailyQuestionResult × Int :=
  match getNextQuestion f c with
  | (Except.ok qa, c') => (DailyQuestionResult.withId qa.question qa.questionId, c')
  | (Except.error _, c') =>
      (DailyQuestionResult.bare
        (FALLBACK_QUESTIONS.getD (dayOfYear timeMs % FALLBACK_QUESTIONS.length) ""), c')

/-! ## Store model (shared/schema.ts, server/storage.ts)

The persistent store is modelled as in-memory lists, one per table, with
rows shaped after `shared/schema.ts`.  Fields this development never
reads (dates, share flags, question ids on entries) are omitted;
timestamps are naturals. -/

/-- A row of the `entries` table (`shared/schema.ts`): `analyzedAt` is
the nullable watermark, `none` meaning not yet analyzed. -/
structure Entry where
  id : Nat
  userId : Nat
  question : String
  answer : String
  analyzedAt : Option Nat
deriving DecidableEq, Repr

/-- A row of the `chat_messages` table. -/
structure ChatMessage where
  id : Nat
  entryId : Nat
  userId : Nat
  content : String
  isBot : Bool
deriving DecidableEq, Repr

/-- A row of the `analyses` table. -/
structure Analysis where
  userId : Nat
  content : String
  entryCount : Nat
deriving DecidableEq, Repr

/-- A row of the `users` table (only the field the pipeline writes). -/
structure UserRow where
  id : Nat
  lastAnalysisAt : Option Nat
deriving DecidableEq, Repr

/-- The database: one list per table.  `entries` is kept in
`createdAt`-ascending order, matching the `orderBy` of
`getUnanalyzedEntries`; `chats` likewise for `getChatMessages`. -/
structure Store where
  entries : List Entry
  chats : List ChatMessage
  analyses : List Analysis
  users : List UserRow
deriving DecidableEq, Repr

/-- The `where` predicate of `getUnanalyzedEntries` /
`getUnanalyzedEntriesCount`: `userId = u AND analyzedAt IS NULL`. -/
def isUnanalyzedFor (u : Nat) (e : Entry) : Bool :=
  e.userId == u && e.analyzedAt.isNone

/-- `DatabaseStorage.getUnanalyzedEntries`: the user's entries with a
null `analyzedAt`, in creation order. -/
def getUnanalyzedEntries (u : Nat) (s : Store) : List Entry :=
  s.entries.filter (isUnanalyzedFor u)

/-- `DatabaseStorage.getUnanalyzedEntriesCount`: counts rows under the
same predicate as `getUnanalyzedEntries`. -/
def getUnanalyzedEntriesCount (u : Nat) (s : Store) : Nat :=
  (getUnanalyzedEntries u s).length

/-- `DatabaseStorage.getChatMessages`: the messages of one entry in
creation order. -/
def getChatMessages (entryId : Nat) (s : Store) : List ChatMessage :=
  s.chats.filter (fun m => m.entryId == entryId)

/-- `DatabaseStorage.createAnalysis`: inserts one `analyses` row. -/
def createAnalysis (u : Nat) (content : String) (entryCount : Nat) (s : Store) : Store :=
  { s with analyses := s.analyses ++ [⟨u, content, entryCount⟩] }

/-- The per-row effect of `DatabaseStorage.markEntriesAsAnalyzed`'s
`UPDATE ... WHERE userId = u AND id IN entryIds`: set `analyzedAt` to
`now` on matching rows, leave the rest alone. -/
def markEntryRow (u : Nat) (entryIds : List Nat) (now : Nat) (e : Entry) : Entry :=
  if e.userId == u && entryIds.contains e.id then
    { e with analyzedAt := some now }
  else
    e

/-- `DatabaseStorage.markEntriesAsAnalyzed`. -/
def markEntriesAsAnalyzed (u : Nat) (entryIds : List Nat) (now : Nat) (s : Store) : Store :=
  { s with entries := s.entries.map (markEntryRow u entryIds now) }

/-- `DatabaseStorage.updateUserLastAnalysisTime`. -/
def updateUserLastAnalysisTime (u : Nat) (now : Nat) (s : Store) : Store :=
  { s with users := s.users.map (fun w => if w.id == u then { w with lastAnalysisAt := some now } else w) }

/-! ## POST /api/analysis (server/routes.ts) -/

/-- One element of the `entriesWithChats` array the handler builds
before calling `generateAnalysis`. -/
structure EntryWithChats where
  question : String
  answer : String
  chatMessages : List ChatMessage
deriving DecidableEq, Repr

/-- The handler's `entriesWithChats` array: each fetched entry paired
with its chat transcript read from the store. -/
def entriesWithChats (es : List Entry) (s : Store) : List EntryWithChats :=
  es.map (fun e => ⟨e.question, e.answer, getChatMessages e.id s⟩)

/-- A generator: the outcome of the `generateAnalysis` call in
`server/openai.ts` as a function of the batch it is given —
`Except.ok` the returned narrative, `Except.error` a thrown failure. -/
def Generator : Type := List EntryWithChats → Except Unit String

/-- The HTTP outcome of the `POST /api/analysis` handler. -/
inductive PostAnalysisResult where
  | noEntries
  | failed
  | created (a : Analysis)
deriving DecidableEq, Repr

/-- The `POST /api/analysis` handler from `server/routes.ts`, run to
completion with no interleaving: fetch the unanalyzed entries; if there
are none, respond 400 "No entries to analyze"; otherwise attach chats,
call the generator (a thrown error lands in the catch block — 500,
nothing written); on success create the analysis row with `entryCount =
entries.length`, mark the fetched entries analyzed, and update the
user's last-analysis time. -/
def postAnalysis (gen : Generator) (u now : Nat) (s : Store) :
    PostAnalysisResult × Store :=
  if (getUnanalyzedEntries u s).length = 0 then
    (PostAnalysisResult.noEntries, s)
  else
    match gen (entriesWithChats (getUnanalyzedEntries u s) s) with
    | Except.error _ => (PostAnalysisResult.failed, s)
    | Except.ok analysisContent =>
        (PostAnalysisResult.created ⟨u, analysisContent, (getUnanalyzedEntries u s).length⟩,
          updateUserLastAnalysisTime u now
            (markEntriesAsAnalyzed u ((getUnanalyzedEntries u s).map (fun e => e.id)) now
              (createAnalysis u analysisContent (getUnanalyzedEntries u s).length s)))

/-- `ANALYSIS_THRESHOLD` from
`client/src/components/drop-counter.tsx`. -/
def ANALYSIS_THRESHOLD : Nat := 7

/-- `handleCreateAnalysis` from `drop-counter.tsx` composed with the
request it may send: if the displayed count is below
`ANALYSIS_THRESHOLD` the client shows a toast and sends nothing
(`none`, store untouched); otherwise it issues `POST /api/analysis`. -/
def handleCreateAnalysis (gen : Generator) (u now : Nat) (s : Store) :
    Option PostAnalysisResult × Store :=
  if getUnanalyzedEntriesCount u s < ANALYSIS_THRESHOLD then
    (none, s)
  else
    (some (postAnalysis gen u now s).1, (postAnalysis gen u now s).2)

/-! ## Interleaved executions of the handler

`postAnalysis` above is the handler run without interruption.  The
handler body is an async function whose `await` points (the storage
reads, the generator call, and each of the three writes) are the places
where the Node event loop can run another request; everything between
two awaits is atomic.  `pipelineStep` is one such atomic segment, and
`execSched` runs two copies of the handler for the same user under an
explicit schedule. -/

/-- The control state of one in-flight `POST /api/analysis` request,
between await points. -/
inductive RunPhase where
  | start
  | fetched (es : List Entry)
  | generated (es : List Entry) (content : String)
  | inserted (es : List Entry) (content : String)
  | marked (a : Analysis)
  | doneNoEntries
  | doneFailed
  | doneCreated (a : Analysis)
deriving DecidableEq, Repr

/-- One atomic segment of the handler: from its current phase, perform
the next read or write against the shared store and move on.  Finished
requests take no further steps. -/
def pipelineStep (gen : Generator) (u now : Nat) :
    RunPhase → Store → RunPhase × Store
  | RunPhase.start, s =>
      if (getUnanalyzedEntries u s).length = 0 then (RunPhase.doneNoEntries, s)
      else (RunPhase.fetched (getUnanalyzedEntries u s), s)
  | RunPhase.fetched es, s =>
      match gen (entriesWithChats es s) with
      | Except.error _ => (RunPhase.doneFailed, s)
      | Except.ok analysisContent => (RunPhase.generated es analysisContent, s)
  | RunPhase.generated es analysisContent, s =>
      (RunPhase.inserted es analysisContent, createAnalysis u analysisContent es.length s)
  | RunPhase.inserted es analysisContent, s =>
      (RunPhase.marked ⟨u, analysisContent, es.length⟩,
        markEntriesAsAnalyzed u (es.map (fun e => e.id)) now s)
  | RunPhase.marked a, s =>
      (RunPhase.doneCreated a, updateUserLastAnalysisTime u now s)
  | ph, s => (ph, s)

/-- Run two concurrent copies of the handler (requests A and B, same
user) under a schedule: `true` steps A, `false` steps B. -/
def execSched (gen : Generator) (u now : Nat) :
    List Bool → RunPhase × RunPhase → Store → RunPhase × RunPhase × Store
  | [], ab, s => (ab.1, ab.2, s)
  | true :: rest, ab, s =>
      execSched gen u now rest
        ((pipelineStep gen u now ab.1 s).1, ab.2) (pipelineStep gen u now ab.1 s).2
  | false :: rest, ab, s =>
      execSched gen u now rest
        (ab.1, (pipelineStep gen u now ab.2 s).1) (pipelineStep gen u now ab.2 s).2

/-- The interleaving in which both requests perform their initial
`getUnanalyzedEntries` read before either writes: A reads, B reads,
then A runs to completion, then B. -/
def raceSchedule : List Bool :=
  [true, false, true, true, true, true, false, false, false, false]

/-- The serialized execution: A runs to completion, then B. -/
def serialSchedule : List Bool :=
  [true, true, true, true, true, false, false, false, false, false]

/-! ## Derived observations used by the claims -/

/-- The `questionId`s returned by `n` sequential `getNextQuestion` calls
against a fixed source, threading the cursor; a failed call contributes
`none`. -/
def questionIdTrace (f : FetchResult) (c : Int) : Nat → List (Option Int)
  | 0 => []
  | n + 1 =>
      let (r, c') := getNextQuestion f c
      (match r with
       | Except.ok qa => some qa.questionId
       | Except.error _ => none) :: questionIdTrace f c' n

/-- The spec's closed form for the n-th id returned over a source with
ids 1..N starting from cursor value `start`:
`((start + n - 2) mod N) + 1`. -/
def specNthId (start n bigN : Nat) : Nat :=
  ((start + n - 2) % bigN) + 1

/-- The spec's expected trace of `n` sequential calls. -/
def specIdTrace (start bigN n : Nat) : List (Option Int) :=
  (List.range n).map (fun k => some ((specNthId start (k + 1) bigN : Nat) : Int))

/-- The cursor left behind by a sequence of `getCurrentQuestion` calls,
one per fetch outcome in `fs`. -/
def cursorAfterCurrents (fs : List FetchResult) (c : Int) : Int :=
  fs.foldl (fun cur f => (getCurrentQuestion f cur).2) c

/-- How many entries had their null `analyzedAt` watermark set between
two store snapshots, compared row by row (the stores of one run have
positionally corresponding entry lists). -/
def newlyMarkedCount (s s' : Store) : Nat :=
  (s.entries.zip s'.entries).countP
    (fun p => p.1.analyzedAt.isNone && p.2.analyzedAt.isSome)

/-- A store holding exactly `n` unanalyzed entries (ids 1..n) for user
1, no chats, no analyses, and the single user row — the concrete
states the witnesses and counterexamples run on. -/
def freshStore (n : Nat) : Store :=
  { entries := (List.range n).map (fun k => ⟨k + 1, 1, "q", "a", none⟩)
  , chats := []
  , analyses := []
  , users := [⟨1, none⟩] }

/-- A generator that always succeeds with a fixed narrative. -/
def okGen : Generator := fun _ => Except.ok "insight"

/-- A generator that always fails (the external call throws). -/
def failGen : Generator := fun _ => Except.error ()

/-! ## Helper lemmas -/

@[simp] lemma chats_createAnalysis (u : Nat) (c : String) (n : Nat) (s : Store) :
    (createAnalysis u c n s).chats = s.chats := rfl

@[simp] lemma chats_markEntriesAsAnalyzed (u : Nat) (ids : List Nat) (now : Nat) (s : Store) :
    (markEntriesAsAnalyzed u ids now s).chats = s.chats := rfl

@[simp] lemma chats_updateUserLastAnalysisTime (u now : Nat) (s : Store) :
    (updateUserLastAnalysisTime u now s).chats = s.chats := rfl

@[simp] lemma entries_createAnalysis (u : Nat) (c : String) (n : Nat) (s : Store) :
    (createAnalysis u c n s).entries = s.entries := rfl

@[simp] lemma entries_markEntriesAsAnalyzed (u : Nat) (ids : List Nat) (now : Nat) (s : Store) :
    (markEntriesAsAnalyzed u ids now s).entries = s.entries.map (markEntryRow u ids now) := rfl

@[simp] lemma entries_updateUserLastAnalysisTime (u now : Nat) (s : Store) :
    (updateUserLastAnalysisTime u now s).entries = s.entries := rfl

@[simp] lemma analyses_createAnalysis (u : Nat) (c : String) (n : Nat) (s : Store) :
    (createAnalysis u c n s).analyses = s.analyses ++ [⟨u, c, n⟩] := rfl

@[simp] lemma analyses_markEntriesAsAnalyzed (u : Nat) (ids : List Nat) (now : Nat) (s : Store) :
    (markEntriesAsAnalyzed u ids now s).analyses = s.analyses := rfl

@[simp] lemma analyses_updateUserLastAnalysisTime (u now : Nat) (s : Store) :
    (updateUserLastAnalysisTime u now s).analyses = s.analyses := rfl

/-- The chat transcripts attached to a batch depend only on the `chats`
table, which none of the pipeline's writes touch. -/
lemma entriesWithChats_congr (es : List Entry) {t s : Store} (h : t.chats = s.chats) :
    entriesWithChats es t = entriesWithChats es s := by
  simp [entriesWithChats, getChatMessages, h]

/-- `getUnanalyzedEntries` only reads the `entries` table. -/
lemma getUnanalyzedEntries_congr (u : Nat) {t s : Store} (h : t.entries = s.entries) :
    getUnanalyzedEntries u t = getUnanalyzedEntries u s := by
  simp [getUnanalyzedEntries, h]

/-- `getCurrentQuestion` leaves the cursor where it was, on every
branch. -/
lemma getCurrentQuestion_snd (f : FetchResult) (c : Int) :
    (getCurrentQuestion f c).2 = c := by
  cases f with
  | err => rfl
  | ok rows =>
      simp only [getCurrentQuestion]
      split
      · rfl
      · split <;> rfl

/-- `markEntryRow` never changes the owner of a row. -/
lemma markEntryRow_userId (u : Nat) (ids : List Nat) (now : Nat) (e : Entry) :
    (markEntryRow u ids now e).userId = e.userId := by
  simp only [markEntryRow]
  split <;> rfl

/-- The watermark `markEntryRow` leaves on a row. -/
lemma markEntryRow_analyzedAt (u : Nat) (ids : List Nat) (now : Nat) (e : Entry) :
    (markEntryRow u ids now e).analyzedAt =
      if e.userId == u && ids.contains e.id then some now else e.analyzedAt := by
  simp only [markEntryRow]
  split <;> rfl

/-- After marking every id that is unanalyzed for `u`, the user has no
unanalyzed entries left. -/
lemma getUnanalyzedEntries_after_mark (u now : Nat) (s : Store) (ids : List Nat)
    (hids : ∀ e ∈ s.entries, isUnanalyzedFor u e → ids.contains e.id) :
    getUnanalyzedEntries u (markEntriesAsAnalyzed u ids now s) = [] := by
  simp only [getUnanalyzedEntries, entries_markEntriesAsAnalyzed]
  rw [List.filter_eq_nil_iff]
  intro a ha
  rcases List.mem_map.mp ha with ⟨e, he, rfl⟩
  intro hpred
  rw [isUnanalyzedFor, markEntryRow_userId, markEntryRow_analyzedAt] at hpred
  by_cases hcond : (e.userId == u && ids.contains e.id) = true
  · rw [if_pos hcond] at hpred
    simp at hpred
  · rw [if_neg hcond] at hpred
    have h1 : (e.userId == u) = true ∧ e.analyzedAt.isNone = true := by
      simpa using hpred
    have h3 : ids.contains e.id = true :=
      hids e he (by simp [isUnanalyzedFor, h1.1, h1.2])
    exact hcond (by
      simp only [h1.1, Bool.true_and]
      simpa using h3)

/-- The ids the handler marks are exactly those of the entries it
fetched, so every unanalyzed entry of the user is covered. -/
lemma fetched_ids_cover (u : Nat) (s : Store) :
    ∀ e ∈ s.entries, isUnanalyzedFor u e →
      ((getUnanalyzedEntries u s).map (fun e => e.id)).contains e.id := by
  intro e he hpred
  have : e ∈ getUnanalyzedEntries u s := List.mem_filter.mpr ⟨he, hpred⟩
  have hmem : e.id ∈ (getUnanalyzedEntries u s).map (fun e => e.id) :=
    List.mem_map.mpr ⟨e, this, rfl⟩
  exact List.elem_eq_true_of_mem hmem

/-- Counting a predicate over a list zipped with its own image under a
map. -/
lemma countP_zip_map {α : Type} (l : List α) (f : α → α) (p : α × α → Bool) :
    ((l.zip (l.map f)).countP p) = l.countP (fun a => p (a, f a)) := by
  induction l with
  | nil => rfl
  | cons x xs ih => simp [List.countP_cons, ih]

/-- Whether a sheets lookup succeeded. -/
def isOkB : Except String QA → Bool
  | Except.ok _ => true
  | Except.error _ => false

/-! ## Claims -/

/-- C2 (code bug): the spec's ordering guarantee — the n-th sequential
`getNextQuestion` call over a source with IDs 1..N returns
`((start + n - 2) mod N) + 1`, never repeating an ID in consecutive
calls.  Over IDs 1..2 starting from cursor 1 the code's four calls
return IDs [1, 2, 1, 1]: the wrap branch resets the cursor to 1 and
returns question 1 but skips the increment, so the following call
returns ID 1 again, where the spec trace has [1, 2, 1, 2].  This
contradicts the function's own doc comment ("increments the index for
the next day"). -/
theorem c2_wrap_repeats_id_one :
    questionIdTrace (FetchResult.ok [⟨1, "q1"⟩, ⟨2, "q2"⟩]) 1 4
        = [some 1, some 2, some 1, some 1]
    ∧ specIdTrace 1 2 4 = [some 1, some 2, some 1, some 2]
    ∧ questionIdTrace (FetchResult.ok [⟨1, "q1"⟩, ⟨2, "q2"⟩]) 1 4 ≠ specIdTrace 1 2 4 := by
  refine ⟨by decide, by decide, by decide⟩

/-- C4: when the question source fails at the adapter level,
`getDailyQuestion` leaves the cursor unchanged and returns the fallback
question at index `dayOfYear mod FALLBACK_QUESTIONS.length` (the code's
`dayOfYear` being the day count derived from the date's epoch
milliseconds); the fallback is always drawn from the fixed list, so
this path never fails, and two calls with the same day index return
the same question. -/
theorem c4_source_failure_fallback (timeMs timeMs2 : Nat) (c c2 : Int)
    (hday : dayOfYear timeMs = dayOfYear timeMs2) :
    (getDailyQuestion FetchResult.err timeMs c).2 = c
    ∧ (getDailyQuestion FetchResult.err timeMs c).1 =
        DailyQuestionResult.bare
          (FALLBACK_QUESTIONS.getD (dayOfYear timeMs % FALLBACK_QUESTIONS.length) "")
    ∧ FALLBACK_QUESTIONS.getD (dayOfYear timeMs % FALLBACK_QUESTIONS.length) ""
        ∈ FALLBACK_QUESTIONS
    ∧ (getDailyQuestion FetchResult.err timeMs c).1
        = (getDailyQuestion FetchResult.err timeMs2 c2).1 := by
  refine ⟨rfl, rfl, ?_, ?_⟩
  · have h : dayOfYear timeMs % FALLBACK_QUESTIONS.length < FALLBACK_QUESTIONS.length :=
      Nat.mod_lt _ (by simp [FALLBACK_QUESTIONS])
    rw [List.getD_eq_getElem FALLBACK_QUESTIONS "" h]
    exact List.getElem_mem h
  · simp [getDailyQuestion, getNextQuestion, hday]

/-- C4 witness: day 5 since the epoch, two different times in that day
and two different cursors. -/
theorem c4_witness :
    dayOfYear (86400000 * 5 + 123) = dayOfYear (86400000 * 5 + 456)
    ∧ (getDailyQuestion FetchResult.err (86400000 * 5 + 123) 3).2 = 3
    ∧ (getDailyQuestion FetchResult.err (86400000 * 5 + 123) 3).1
        = (getDailyQuestion FetchResult.err (86400000 * 5 + 456) 9).1 := by
  have h : dayOfYear (86400000 * 5 + 123) = dayOfYear (86400000 * 5 + 456) := by decide
  have hmain := c4_source_failure_fallback (86400000 * 5 + 123) (86400000 * 5 + 456) 3 9 h
  exact ⟨h, hmain.1, hmain.2.2.2⟩

/-- C7: `setQuestionIndex n` with n < 1 fails with the
invalid-argument error and leaves the cursor unchanged; with n ≥ 1 it
overwrites the cursor, and the overwritten value is what the next
`getNextQuestion` uses. -/
theorem c7_setQuestionIndex_spec (n c : Int) :
    (n < 1 → setQuestionIndex n c = (Except.error "Question index must be greater than 0", c))
    ∧ (1 ≤ n → setQuestionIndex n c = (Except.ok (), n)
        ∧ ∀ f, getNextQuestion f (setQuestionIndex n c).2 = getNextQuestion f n) := by
  constructor
  · intro h
    simp [setQuestionIndex, h]
  · intro h
    have hn : ¬ n < 1 := not_lt.mpr h
    exact ⟨by simp [setQuestionIndex, hn], fun f => by simp [setQuestionIndex, hn]⟩

/-- C7 witness: `setQuestionIndex 0` and `setQuestionIndex (-1)` fail
leaving the cursor at 5; `setQuestionIndex 9` overwrites it. -/
theorem c7_witness :
    setQuestionIndex 0 5 = (Except.error "Question index must be greater than 0", 5)
    ∧ setQuestionIndex (-1) 5 = (Except.error "Question index must be greater than 0", 5)
    ∧ setQuestionIndex 9 5 = (Except.ok (), 9) :=
  ⟨(c7_setQuestionIndex_spec 0 5).1 (by decide),
   (c7_setQuestionIndex_spec (-1) 5).1 (by decide),
   ((c7_setQuestionIndex_spec 9 5).2 (by decide)).1⟩

/-- C8: `getCurrentQuestion` never mutates the cursor: any number of
calls, each succeeding or failing, leaves the cursor value — and hence
the result of the next `getNextQuestion` — exactly as it was. -/
theorem c8_getCurrent_pure (fs : List FetchResult) (c : Int) :
    cursorAfterCurrents fs c = c
    ∧ ∀ g, getNextQuestion g (cursorAfterCurrents fs c) = getNextQuestion g c := by
  have h : ∀ (fs : List FetchResult) (c : Int), cursorAfterCurrents fs c = c := by
    intro fs
    induction fs with
    | nil => intro c; rfl
    | cons f rest ih =>
        intro c
        show cursorAfterCurrents rest (getCurrentQuestion f c).2 = c
        rw [getCurrentQuestion_snd]
        exact ih c
  exact ⟨h fs c, fun g => by rw [h fs c]⟩

/-- C10: `getDailyQuestion` returns a `{ question, questionId }` object
exactly when `getNextQuestion` succeeded, and a bare fallback string
when it failed, so some responses carry a `questionId` and others do
not, despite the method's declared `Promise<string>` return type. -/
theorem c10_response_shape :
    (∀ (f : FetchResult) (timeMs : Nat) (c : Int),
        (getDailyQuestion f timeMs c).1.hasQuestionId = isOkB (getNextQuestion f c).1)
    ∧ (getDailyQuestion (FetchResult.ok [⟨1, "q1"⟩]) 0 1).1
        = DailyQuestionResult.withId "q1" 1
    ∧ (getDailyQuestion FetchResult.err 0 1).1
        = DailyQuestionResult.bare "What small moment from today made you smile?" := by
  refine ⟨?_, by decide, by decide⟩
  intro f timeMs c
  simp only [getDailyQuestion]
  rcases hx : getNextQuestion f c with ⟨r, c2⟩
  cases r <;> simp [DailyQuestionResult.hasQuestionId, isOkB]

/-- C5 counterexample: with a reachable source whose only row has ID 2
and the cursor at 3, the exhausted-after-wrap path produces the very
same generic error value as a transport failure — not a distinct
surfaced SourceExhausted — and the user-facing `getDailyQuestion` call
swallows it through the same silent local fallback used for
source-unreachable failures. -/
theorem c5_counterexample :
    getNextQuestion (FetchResult.ok [⟨2, "q2"⟩]) 3 = (Except.error sheetsFailureMsg, 1)
    ∧ (getNextQuestion FetchResult.err 3).1 = Except.error sheetsFailureMsg
    ∧ (getDailyQuestion (FetchResult.ok [⟨2, "q2"⟩]) 0 3).1
        = DailyQuestionResult.bare "What small moment from today made you smile?"
    ∧ (getDailyQuestion FetchResult.err 0 3).1
        = DailyQuestionResult.bare "What small moment from today made you smile?" := by
  refine ⟨rfl, rfl, by decide, by decide⟩

/-- C5 (amended): when a reachable source has no row matching the
cursor, the cursor is reset to 1 and the lookup retried once against
ID 1; if that retry also fails, `getNextQuestion` throws the same
generic failure as a transport error (with the cursor left at 1), and
`getDailyQuestion` handles it through the same silent local fallback —
exhaustion is not surfaced distinctly to the caller. -/
theorem c5_wrap_retry_then_generic_failure (rows : List Row) (c : Int) (timeMs : Nat)
    (hne : rows ≠ [])
    (hmiss : rows.find? (fun row => row.id = c) = none) :
    (∀ r, rows.find? (fun row => row.id = 1) = some r →
        getNextQuestion (FetchResult.ok rows) c = (Except.ok ⟨r.text, r.id⟩, 1))
    ∧ (rows.find? (fun row => row.id = 1) = none →
        getNextQuestion (FetchResult.ok rows) c = (Except.error sheetsFailureMsg, 1)
        ∧ (getNextQuestion FetchResult.err c).1 = Except.error sheetsFailureMsg
        ∧ (getDailyQuestion (FetchResult.ok rows) timeMs c).1 =
            DailyQuestionResult.bare
              (FALLBACK_QUESTIONS.getD (dayOfYear timeMs % FALLBACK_QUESTIONS.length) "")) := by
  have hemp : rows.isEmpty = false := by
    simpa [List.isEmpty_iff] using hne
  constructor
  · intro r hfind
    simp [getNextQuestion, hemp, hmiss, hfind]
  · intro hfind
    have hnext : getNextQuestion (FetchResult.ok rows) c = (Except.error sheetsFailureMsg, 1) := by
      simp [getNextQuestion, hemp, hmiss, hfind]
    refine ⟨hnext, rfl, ?_⟩
    simp [getDailyQuestion, hnext]

/-- C5 witness: the amended behaviour on a source holding only ID 2,
cursor 7: the retry happens against ID 1, fails, and the daily-question
call falls back silently. -/
theorem c5_witness :
    getNextQuestion (FetchResult.ok [⟨2, "q2"⟩]) 7 = (Except.error sheetsFailureMsg, 1)
    ∧ (getNextQuestion FetchResult.err 7).1 = Except.error sheetsFailureMsg
    ∧ (getDailyQuestion (FetchResult.ok [⟨2, "q2"⟩]) 86400123 7).1 =
        DailyQuestionResult.bare
          (FALLBACK_QUESTIONS.getD (dayOfYear 86400123 % FALLBACK_QUESTIONS.length) "") :=
  (c5_wrap_retry_then_generic_failure [⟨2, "q2"⟩] 7 86400123
      (by decide) (by decide)).2 (by decide)

/-- C1 counterexample: a user with 6 unanalyzed entries — inside the
claimed 1 ≤ n < 7 rejection band — triggers `POST /api/analysis` with a
succeeding generator: the run is not rejected; it creates an Analysis
with `entryCount = 6`, marks all six entries analyzed, and updates the
user's last-analysis timestamp. -/
theorem c1_counterexample :
    getUnanalyzedEntriesCount 1 (freshStore 6) = 6
    ∧ (postAnalysis okGen 1 100 (freshStore 6)).1
        = PostAnalysisResult.created ⟨1, "insight", 6⟩
    ∧ (postAnalysis okGen 1 100 (freshStore 6)).2.analyses.length = 1
    ∧ getUnanalyzedEntriesCount 1 (postAnalysis okGen 1 100 (freshStore 6)).2 = 0
    ∧ (postAnalysis okGen 1 100 (freshStore 6)).2.users = [⟨1, some 100⟩] := by
  refine ⟨by decide, by decide, by decide, by decide, by decide⟩

/-- C1 (amended): the server-side handler rejects only an empty backlog
(n = 0, "No entries to analyze") and does so without side effects; for
every nonempty backlog — including 1 ≤ n < 7 — it does not reject.  The
7-entry threshold is enforced solely client-side: `handleCreateAnalysis`
in DropCounter refuses to issue the request when the displayed count is
below `ANALYSIS_THRESHOLD`, leaving the store untouched. -/
theorem c1_threshold_client_side_only (gen : Generator) (u now : Nat) (s : Store) :
    (getUnanalyzedEntriesCount u s = 0 →
        postAnalysis gen u now s = (PostAnalysisResult.noEntries, s))
    ∧ (getUnanalyzedEntriesCount u s ≠ 0 →
        (postAnalysis gen u now s).1 ≠ PostAnalysisResult.noEntries)
    ∧ (getUnanalyzedEntriesCount u s < ANALYSIS_THRESHOLD →
        handleCreateAnalysis gen u now s = (none, s)) := by
  refine ⟨?_, ?_, ?_⟩
  · intro h
    simp [postAnalysis, getUnanalyzedEntriesCount] at h ⊢
    simp [h]
  · intro h
    rw [getUnanalyzedEntriesCount] at h
    simp only [postAnalysis, if_neg h]
    rcases gen (entriesWithChats (getUnanalyzedEntries u s) s) with e | content <;> simp
  · intro h
    simp [handleCreateAnalysis, h]

/-- C1 witness: an empty backlog is rejected without side effects; a
6-entry backlog is not rejected; a 3-entry backlog triggered from the
client issues no request and changes nothing. -/
theorem c1_witness :
    postAnalysis okGen 1 100 (freshStore 0) = (PostAnalysisResult.noEntries, freshStore 0)
    ∧ (postAnalysis okGen 1 100 (freshStore 6)).1 ≠ PostAnalysisResult.noEntries
    ∧ handleCreateAnalysis okGen 1 100 (freshStore 3) = (none, freshStore 3) :=
  ⟨(c1_threshold_client_side_only okGen 1 100 (freshStore 0)).1 (by decide),
   (c1_threshold_client_side_only okGen 1 100 (freshStore 6)).2.1 (by decide),
   (c1_threshold_client_side_only okGen 1 100 (freshStore 3)).2.2 (by decide)⟩

/-- C3: when the generation call fails, the run ends in the failed
outcome with the store exactly as before — no entry marked, no Analysis
created, the unanalyzed count untouched — and a retry with a succeeding
generator creates one Analysis whose `entryCount` equals that unchanged
count. -/
theorem c3_generation_failure_no_side_effects (gen genRetry : Generator)
    (u now now2 : Nat) (s : Store) (content : String)
    (hne : getUnanalyzedEntries u s ≠ [])
    (hfail : gen (entriesWithChats (getUnanalyzedEntries u s) s) = Except.error ())
    (hok : genRetry (entriesWithChats (getUnanalyzedEntries u s) s) = Except.ok content) :
    postAnalysis gen u now s = (PostAnalysisResult.failed, s)
    ∧ getUnanalyzedEntriesCount u (postAnalysis gen u now s).2 = getUnanalyzedEntriesCount u s
    ∧ (postAnalysis genRetry u now2 (postAnalysis gen u now s).2).1
        = PostAnalysisResult.created ⟨u, content, getUnanalyzedEntriesCount u s⟩ := by
  have hlen : ¬ (getUnanalyzedEntries u s).length = 0 := by
    simpa [List.length_eq_zero] using hne
  have h1 : postAnalysis gen u now s = (PostAnalysisResult.failed, s) := by
    simp only [postAnalysis, if_neg hlen, hfail]
  refine ⟨h1, by rw [h1], ?_⟩
  rw [h1]
  simp only [postAnalysis, if_neg hlen, hok, getUnanalyzedEntriesCount]

/-- C3 witness: 10 unanalyzed entries, failing then succeeding
generator. -/
theorem c3_witness :
    postAnalysis failGen 1 100 (freshStore 10) = (PostAnalysisResult.failed, freshStore 10)
    ∧ getUnanalyzedEntriesCount 1 (postAnalysis failGen 1 100 (freshStore 10)).2 = 10
    ∧ (postAnalysis okGen 1 200 (postAnalysis failGen 1 100 (freshStore 10)).2).1
        = PostAnalysisResult.created ⟨1, "insight", 10⟩ := by
  have h := c3_generation_failure_no_side_effects failGen okGen 1 100 200
    (freshStore 10) "insight" (by decide) rfl rfl
  exact ⟨h.1, h.2.1.trans (by decide), h.2.2⟩

/-- Two Bool predicates that agree on a list's members count the
same. -/
lemma countP_congr_mem {α : Type} (l : List α) (p q : α → Bool)
    (h : ∀ a ∈ l, p a = q a) : l.countP p = l.countP q := by
  induction l with
  | nil => rfl
  | cons x xs ih =>
      rw [List.countP_cons, List.countP_cons, h x (List.mem_cons_self x xs),
        ih (fun a ha => h a (List.mem_cons_of_mem x ha))]

/-- C9: a successful sequential run creates an Analysis whose
`entryCount` equals the number of entries whose null watermark the run
set, which is exactly the size of the unanalyzed set read at the start
(the value `getUnanalyzedEntriesCount` reported). -/
theorem c9_entryCount_matches_marked (gen : Generator) (u now : Nat) (s : Store)
    (content : String)
    (hne : getUnanalyzedEntries u s ≠ [])
    (hok : gen (entriesWithChats (getUnanalyzedEntries u s) s) = Except.ok content) :
    (postAnalysis gen u now s).1
        = PostAnalysisResult.created ⟨u, content, (getUnanalyzedEntries u s).length⟩
    ∧ newlyMarkedCount s (postAnalysis gen u now s).2 = (getUnanalyzedEntries u s).length
    ∧ getUnanalyzedEntriesCount u s = (getUnanalyzedEntries u s).length := by
  have hlen : ¬ (getUnanalyzedEntries u s).length = 0 := by
    simpa [List.length_eq_zero] using hne
  have hpost : postAnalysis gen u now s =
      (PostAnalysisResult.created ⟨u, content, (getUnanalyzedEntries u s).length⟩,
        updateUserLastAnalysisTime u now
          (markEntriesAsAnalyzed u ((getUnanalyzedEntries u s).map (fun e => e.id)) now
            (createAnalysis u content (getUnanalyzedEntries u s).length s))) := by
    simp only [postAnalysis, if_neg hlen, hok]
  refine ⟨by rw [hpost], ?_, rfl⟩
  rw [hpost]
  simp only [newlyMarkedCount, entries_updateUserLastAnalysisTime,
    entries_markEntriesAsAnalyzed, entries_createAnalysis]
  rw [countP_zip_map]
  have hrhs : (getUnanalyzedEntries u s).length = s.entries.countP (isUnanalyzedFor u) := by
    rw [getUnanalyzedEntries, List.countP_eq_length_filter]
  rw [hrhs]
  apply countP_congr_mem
  intro e he
  show (e.analyzedAt.isNone
      && (markEntryRow u ((getUnanalyzedEntries u s).map (fun e => e.id)) now e).analyzedAt.isSome)
    = isUnanalyzedFor u e
  rw [markEntryRow_analyzedAt]
  by_cases hcond :
      (e.userId == u
        && ((getUnanalyzedEntries u s).map (fun e => e.id)).contains e.id) = true
  · rw [if_pos hcond]
    have hu : (e.userId == u) = true := by
      revert hcond
      cases (e.userId == u) <;> simp
    simp [isUnanalyzedFor, hu]
  · rw [if_neg hcond]
    cases hb : isUnanalyzedFor u e with
    | false =>
        cases e.analyzedAt <;> rfl
    | true =>
        exfalso
        apply hcond
        have hu : (e.userId == u) = true := by
          revert hb
          rw [isUnanalyzedFor]
          cases (e.userId == u) <;> simp
        have hcont := fetched_ids_cover u s e he hb
        simp only [hu, Bool.true_and]
        exact hcont

/-- C9 witness: 7 unanalyzed entries and a succeeding generator. -/
theorem c9_witness :
    (postAnalysis okGen 1 100 (freshStore 7)).1
        = PostAnalysisResult.created ⟨1, "insight", 7⟩
    ∧ newlyMarkedCount (freshStore 7) (postAnalysis okGen 1 100 (freshStore 7)).2 = 7
    ∧ getUnanalyzedEntriesCount 1 (freshStore 7) = 7 := by
  have h := c9_entryCount_matches_marked okGen 1 100 (freshStore 7) "insight"
    (by decide) rfl
  exact ⟨h.1, h.2.1, h.2.2⟩

/-- Stepping request A under a schedule that schedules A next. -/
lemma execSched_cons_true {gen : Generator} {u now : Nat} {a ph : RunPhase}
    {s t : Store} {b : RunPhase} {rest : List Bool}
    (h : pipelineStep gen u now a s = (ph, t)) :
    execSched gen u now (true :: rest) (a, b) s = execSched gen u now rest (ph, b) t := by
  show execSched gen u now rest ((pipelineStep gen u now a s).1, b)
      (pipelineStep gen u now a s).2 = execSched gen u now rest (ph, b) t
  rw [h]

/-- Stepping request B under a schedule that schedules B next. -/
lemma execSched_cons_false {gen : Generator} {u now : Nat} {b ph : RunPhase}
    {s t : Store} {a : RunPhase} {rest : List Bool}
    (h : pipelineStep gen u now b s = (ph, t)) :
    execSched gen u now (false :: rest) (a, b) s = execSched gen u now rest (a, ph) t := by
  show execSched gen u now rest (a, (pipelineStep gen u now b s).1)
      (pipelineStep gen u now b s).2 = execSched gen u now rest (a, ph) t
  rw [h]

/-- C6 counterexample: two concurrent `POST /api/analysis` requests for
user 1 over a backlog of exactly 7 eligible entries, interleaved so
that both perform their initial read before either writes, end with TWO
Analysis records of `entryCount = 7`, not exactly one. -/
theorem c6_counterexample :
    (execSched okGen 1 100 raceSchedule (RunPhase.start, RunPhase.start)
        (freshStore 7)).2.2.analyses
      = [⟨1, "insight", 7⟩, ⟨1, "insight", 7⟩]
    ∧ (execSched okGen 1 100 raceSchedule (RunPhase.start, RunPhase.start)
        (freshStore 7)).2.2.analyses.length ≠ 1 := by
  refine ⟨by decide, by decide⟩

/-- C6 (amended): the handler takes no per-user lock, so over a backlog
of exactly 7 eligible entries the interleaving in which both requests
read the backlog before either marks it creates two Analysis records
with `entryCount = 7`; only the fully serialized execution creates
exactly one, the second request then being rejected with "No entries to
analyze". -/
theorem c6_no_per_user_lock (gen : Generator) (u now : Nat) (s : Store) (content : String)
    (h7 : (getUnanalyzedEntries u s).length = 7)
    (hok : gen (entriesWithChats (getUnanalyzedEntries u s) s) = Except.ok content) :
    ((execSched gen u now raceSchedule (RunPhase.start, RunPhase.start) s).2.2.analyses
        = s.analyses ++ [⟨u, content, 7⟩, ⟨u, content, 7⟩])
    ∧ ((execSched gen u now serialSchedule (RunPhase.start, RunPhase.start) s).2.2.analyses
        = s.analyses ++ [⟨u, content, 7⟩])
    ∧ (execSched gen u now serialSchedule (RunPhase.start, RunPhase.start) s).2.1
        = RunPhase.doneNoEntries := by
  have hlen0 : ¬ (getUnanalyzedEntries u s).length = 0 := by
    rw [h7]
    decide
  have st1 : pipelineStep gen u now RunPhase.start s
      = (RunPhase.fetched (getUnanalyzedEntries u s), s) := by
    simp only [pipelineStep, if_neg hlen0]
  have st3 : pipelineStep gen u now (RunPhase.fetched (getUnanalyzedEntries u s)) s
      = (RunPhase.generated (getUnanalyzedEntries u s) content, s) := by
    simp only [pipelineStep, hok]
  have st4 : ∀ t, pipelineStep gen u now
        (RunPhase.generated (getUnanalyzedEntries u s) content) t
      = (RunPhase.inserted (getUnanalyzedEntries u s) content,
          createAnalysis u content (getUnanalyzedEntries u s).length t) :=
    fun _ => rfl
  have st5 : ∀ t, pipelineStep gen u now
        (RunPhase.inserted (getUnanalyzedEntries u s) content) t
      = (RunPhase.marked ⟨u, content, (getUnanalyzedEntries u s).length⟩,
          markEntriesAsAnalyzed u ((getUnanalyzedEntries u s).map (fun e => e.id)) now t) :=
    fun _ => rfl
  have st6 : ∀ (a : Analysis) t, pipelineStep gen u now (RunPhase.marked a) t
      = (RunPhase.doneCreated a, updateUserLastAnalysisTime u now t) :=
    fun _ _ => rfl
  have st7 : pipelineStep gen u now (RunPhase.fetched (getUnanalyzedEntries u s))
        (updateUserLastAnalysisTime u now
          (markEntriesAsAnalyzed u ((getUnanalyzedEntries u s).map (fun e => e.id)) now
            (createAnalysis u content (getUnanalyzedEntries u s).length s)))
      = (RunPhase.generated (getUnanalyzedEntries u s) content,
          updateUserLastAnalysisTime u now
            (markEntriesAsAnalyzed u ((getUnanalyzedEntries u s).map (fun e => e.id)) now
              (createAnalysis u content (getUnanalyzedEntries u s).length s))) := by
    have hc : entriesWithChats (getUnanalyzedEntries u s)
          (updateUserLastAnalysisTime u now
            (markEntriesAsAnalyzed u ((getUnanalyzedEntries u s).map (fun e => e.id)) now
              (createAnalysis u content (getUnanalyzedEntries u s).length s)))
        = entriesWithChats (getUnanalyzedEntries u s) s :=
      entriesWithChats_congr _ rfl
    simp only [pipelineStep, hc, hok]
  have hempty : getUnanalyzedEntries u
        (updateUserLastAnalysisTime u now
          (markEntriesAsAnalyzed u ((getUnanalyzedEntries u s).map (fun e => e.id)) now
            (createAnalysis u content (getUnanalyzedEntries u s).length s)))
      = [] := by
    rw [getUnanalyzedEntries_congr u
      (rfl :
        (updateUserLastAnalysisTime u now
          (markEntriesAsAnalyzed u ((getUnanalyzedEntries u s).map (fun e => e.id)) now
            (createAnalysis u content (getUnanalyzedEntries u s).length s))).entries
        = (markEntriesAsAnalyzed u ((getUnanalyzedEntries u s).map (fun e => e.id)) now
            (createAnalysis u content (getUnanalyzedEntries u s).length s)).entries)]
    exact getUnanalyzedEntries_after_mark u now
      (createAnalysis u content (getUnanalyzedEntries u s).length s)
      ((getUnanalyzedEntries u s).map (fun e => e.id))
      (fun e he hp => fetched_ids_cover u s e he hp)
  have stB : pipelineStep gen u now RunPhase.start
        (updateUserLastAnalysisTime u now
          (markEntriesAsAnalyzed u ((getUnanalyzedEntries u s).map (fun e => e.id)) now
            (createAnalysis u content (getUnanalyzedEntries u s).length s)))
      = (RunPhase.doneNoEntries,
          updateUserLastAnalysisTime u now
            (markEntriesAsAnalyzed u ((getUnanalyzedEntries u s).map (fun e => e.id)) now
              (createAnalysis u content (getUnanalyzedEntries u s).length s))) := by
    simp [pipelineStep, hempty]
  have stNo : ∀ t, pipelineStep gen u now RunPhase.doneNoEntries t
      = (RunPhase.doneNoEntries, t) := fun _ => rfl
  have hrace : execSched gen u now raceSchedule (RunPhase.start, RunPhase.start) s
      = (RunPhase.doneCreated ⟨u, content, (getUnanalyzedEntries u s).length⟩,
         RunPhase.doneCreated ⟨u, content, (getUnanalyzedEntries u s).length⟩,
         updateUserLastAnalysisTime u now
           (markEntriesAsAnalyzed u ((getUnanalyzedEntries u s).map (fun e => e.id)) now
             (createAnalysis u content (getUnanalyzedEntries u s).length
               (updateUserLastAnalysisTime u now
                 (markEntriesAsAnalyzed u
                   ((getUnanalyzedEntries u s).map (fun e => e.id)) now
                   (createAnalysis u content (getUnanalyzedEntries u s).length s)))))) := by
    rw [raceSchedule, execSched_cons_true st1, execSched_cons_false st1,
      execSched_cons_true st3, execSched_cons_true (st4 s),
      execSched_cons_true (st5 _), execSched_cons_true (st6 _ _),
      execSched_cons_false st7, execSched_cons_false (st4 _),
      execSched_cons_false (st5 _), execSched_cons_false (st6 _ _)]
    rfl
  have hserial : execSched gen u now serialSchedule (RunPhase.start, RunPhase.start) s
      = (RunPhase.doneCreated ⟨u, content, (getUnanalyzedEntries u s).length⟩,
         RunPhase.doneNoEntries,
         updateUserLastAnalysisTime u now
           (markEntriesAsAnalyzed u ((getUnanalyzedEntries u s).map (fun e => e.id)) now
             (createAnalysis u content (getUnanalyzedEntries u s).length s))) := by
    rw [serialSchedule, execSched_cons_true st1, execSched_cons_true st3,
      execSched_cons_true (st4 s), execSched_cons_true (st5 _),
      execSched_cons_true (st6 _ _), execSched_cons_false stB,
      execSched_cons_false (stNo _), execSched_cons_false (stNo _),
      execSched_cons_false (stNo _), execSched_cons_false (stNo _)]
    rfl
  refine ⟨?_, ?_, ?_⟩
  · rw [hrace]
    simp [h7, List.append_assoc]
  · rw [hserial]
    simp [h7]
  · rw [hserial]

/-- C6 witness: the amended behaviour at a concrete 7-entry backlog
with an always-succeeding generator. -/
theorem c6_witness :
    ((execSched okGen 1 100 raceSchedule (RunPhase.start, RunPhase.start)
        (freshStore 7)).2.2.analyses
      = (freshStore 7).analyses ++ [⟨1, "insight", 7⟩, ⟨1, "insight", 7⟩])
    ∧ ((execSched okGen 1 100 serialSchedule (RunPhase.start, RunPhase.start)
        (freshStore 7)).2.2.analyses
      = (freshStore 7).analyses ++ [⟨1, "insight", 7⟩])
    ∧ (execSched okGen 1 100 serialSchedule (RunPhase.start, RunPhase.start)
        (freshStore 7)).2.1 = RunPhase.doneNoEntries :=
  c6_no_per_user_lock okGen 1 100 (freshStore 7) "insight" (by decide) rfl

end DailyDrop
